import Mathlib

/-!
# Verification of the AbrenCare health-analytics core

Shallow embedding, over `ℚ`, of the analytics functions of
`backend/health_data` (models.py, sleep_processor.py, health_analyzer.py,
heart_rate_processor.py), together with theorems settling the specification
claims about them.

Conventions of the embedding:
* Python floats are modelled as exact rationals; `round(x, k)` is modelled as
  exact decimal rounding half-to-even (`pyRound1`, `pyRound2`), Python's tie
  rule.
* Integer model fields (`bpm`, stage minutes, ...) are carried as `ℚ`; all
  theorems and witnesses instantiate them at integer values.
* Quantities that the source obtains through a square root (`np.std` used in
  a comparison, RMSSD) are represented by their squares: every comparison
  `sqrt v` vs `c` in the source is embedded as the equivalent comparison of
  `v` vs `c^2`, and reported values derived from a square root are carried
  squared (fields named `...Sq`).
* Django querysets are modelled as the time-ordered `List` the queryset
  delivers; saving a model instance is state transformation on the record.
-/

/-- Python's `int(x)` for a rational: truncation toward zero. -/
def pyTrunc (x : ℚ) : ℤ := if 0 ≤ x then ⌊x⌋ else ⌈x⌉

/-- Round a rational to the nearest integer, ties to even —
Python's `round(x)` on exact decimal inputs. -/
def roundHalfEven (x : ℚ) : ℤ :=
  if x - ⌊x⌋ < 1/2 then ⌊x⌋
  else if 1/2 < x - ⌊x⌋ then ⌊x⌋ + 1
  else if 2 ∣ ⌊x⌋ then ⌊x⌋ else ⌊x⌋ + 1

/-- Python `round(x, 1)` (idealised to exact decimal arithmetic). -/
def pyRound1 (x : ℚ) : ℚ := (roundHalfEven (10 * x) : ℚ) / 10

/-- Python `round(x, 2)` (idealised to exact decimal arithmetic). -/
def pyRound2 (x : ℚ) : ℚ := (roundHalfEven (100 * x) : ℚ) / 100

/-- `np.mean` over a rational list. -/
def qmean (xs : List ℚ) : ℚ := xs.sum / xs.length

/-- Square of `np.std` (population variance) over a rational list. -/
def qvarPop (xs : List ℚ) : ℚ :=
  (xs.map (fun x => (x - qmean xs) ^ 2)).sum / xs.length

theorem roundHalfEven_intCast (n : ℤ) : roundHalfEven (n : ℚ) = n := by
  unfold roundHalfEven
  rw [Int.floor_intCast]
  norm_num

theorem roundHalfEven_mono {x y : ℚ} (h : x ≤ y) :
    roundHalfEven x ≤ roundHalfEven y := by
  have hf : (⌊x⌋ : ℤ) ≤ ⌊y⌋ := Int.floor_le_floor h
  rcases eq_or_lt_of_le hf with heq | hlt
  · -- same integer part: compare fractional parts branch by branch
    unfold roundHalfEven
    rw [← heq]
    split_ifs <;> first | omega | linarith
  · -- floor strictly increases
    have h1 : roundHalfEven x ≤ ⌊x⌋ + 1 := by
      unfold roundHalfEven; split_ifs <;> omega
    have h2 : (⌊y⌋ : ℤ) ≤ roundHalfEven y := by
      unfold roundHalfEven; split_ifs <;> omega
    omega

/-- Python truthiness of an optional numeric field: `None` and `0` are falsy;
returns the value when truthy. -/
def truthyQ : Option ℚ → Option ℚ
  | some x => if x = 0 then none else some x
  | none => none

/-- `health_data.models.SleepSession`: the fields the analytics read or write.
Timestamps are epoch seconds; `duration_minutes` is an `IntegerField` whose
unset/`None` state is represented by `0` (both are falsy in `save`). -/
structure SleepSession where
  start_time : Option ℚ
  end_time : Option ℚ
  duration_minutes : ℚ
  awake_minutes : ℚ := 0
  light_minutes : ℚ := 0
  deep_minutes : ℚ := 0
  rem_minutes : ℚ := 0
  quality_score : Option ℚ := none
  quality_category : String := ""
  interruptions : ℚ := 0
  sleep_efficiency : Option ℚ := none
deriving DecidableEq, Repr

/-- `SleepSession.total_sleep_minutes`: light + deep + rem (awake excluded). -/
def SleepSession.total_sleep_minutes (s : SleepSession) : ℚ :=
  s.light_minutes + s.deep_minutes + s.rem_minutes

/-- `SleepSession.deep_sleep_percentage`. -/
def SleepSession.deep_sleep_percentage (s : SleepSession) : ℚ :=
  if 0 < s.total_sleep_minutes then s.deep_minutes / s.total_sleep_minutes * 100 else 0

/-- `SleepSession.rem_sleep_percentage`. -/
def SleepSession.rem_sleep_percentage (s : SleepSession) : ℚ :=
  if 0 < s.total_sleep_minutes then s.rem_minutes / s.total_sleep_minutes * 100 else 0

/-- `SleepSession.save`: derives `duration_minutes` from start/end when the
duration is falsy, derives `sleep_efficiency` (from ALL four stage buckets,
awake included) when it is falsy and duration is positive, and fills
`quality_category` from `quality_score`. -/
def SleepSession.save (s : SleepSession) : SleepSession :=
  let s1 : SleepSession :=
    match s.start_time, s.end_time with
    | some st, some en =>
        if s.duration_minutes = 0 then
          { s with duration_minutes := (pyTrunc ((en - st) / 60) : ℚ) }
        else s
    | _, _ => s
  let total := s1.awake_minutes + s1.light_minutes + s1.deep_minutes + s1.rem_minutes
  let s2 : SleepSession :=
    if (truthyQ s1.sleep_efficiency).isNone ∧ 0 < s1.duration_minutes ∧ 0 < total then
      { s1 with sleep_efficiency := some (total / s1.duration_minutes * 100) }
    else s1
  match truthyQ s2.quality_score with
  | some q =>
      if s2.quality_category = "" then
        { s2 with quality_category :=
            if 85 ≤ q then "excellent" else if 70 ≤ q then "good"
            else if 50 ≤ q then "fair" else "poor" }
      else s2
  | none => s2

namespace SleepProcessor

/-- Duration factor of `_calculate_sleep_score` (input in hours). -/
def durationFactor (sleep_hours : ℚ) : ℚ :=
  if 7 ≤ sleep_hours ∧ sleep_hours ≤ 9 then 100
  else if (6 ≤ sleep_hours ∧ sleep_hours < 7) ∨ (9 < sleep_hours ∧ sleep_hours ≤ 10) then 70
  else if (5 ≤ sleep_hours ∧ sleep_hours < 6) ∨ (10 < sleep_hours ∧ sleep_hours ≤ 11) then 40
  else 20

/-- Efficiency factor of `_calculate_sleep_score`. -/
def efficiencyFactor (eff : ℚ) : ℚ :=
  if 90 ≤ eff then 100 else if 85 ≤ eff then 85 else if 75 ≤ eff then 60 else 30

/-- Deep-sleep factor of `_calculate_sleep_score` (input in percent). -/
def deepSleepFactor (dp : ℚ) : ℚ :=
  if 15 ≤ dp ∧ dp ≤ 25 then 100
  else if (10 ≤ dp ∧ dp < 15) ∨ (25 < dp ∧ dp ≤ 30) then 70
  else if (5 ≤ dp ∧ dp < 10) ∨ (30 < dp ∧ dp ≤ 35) then 40
  else 20

/-- REM factor of `_calculate_sleep_score` (input in percent). -/
def remSleepFactor (rp : ℚ) : ℚ :=
  if 20 ≤ rp ∧ rp ≤ 25 then 100
  else if (15 ≤ rp ∧ rp < 20) ∨ (25 < rp ∧ rp ≤ 30) then 70
  else if (10 ≤ rp ∧ rp < 15) ∨ (30 < rp ∧ rp ≤ 35) then 40
  else 20

/-- Interruption factor of `_calculate_sleep_score`. -/
def interruptionFactor (n : ℚ) : ℚ :=
  if n ≤ 2 then 100 else if n ≤ 5 then 70 else if n ≤ 10 then 40 else 10

/-- The efficiency the processor uses:
`sleep_session.sleep_efficiency or (total_sleep/duration*100 if duration > 0 else 0)`. -/
def effectiveEfficiency (s : SleepSession) : ℚ :=
  match truthyQ s.sleep_efficiency with
  | some e => e
  | none =>
      if 0 < s.duration_minutes then s.total_sleep_minutes / s.duration_minutes * 100 else 0

/-- The weighted combination of `_calculate_sleep_score`
(duration 0.30, efficiency 0.25, deep 0.20, rem 0.15, interruptions 0.10),
with each factor score as an argument. -/
def sleepScoreCore (durF effF deepF remF intF : ℚ) : ℚ :=
  pyRound1 (durF * 0.30 + effF * 0.25 + deepF * 0.20 + remF * 0.15 + intF * 0.10)

/-- `SleepProcessor._calculate_sleep_score`. -/
def calculateSleepScore (s : SleepSession) : ℚ :=
  sleepScoreCore (durationFactor (s.duration_minutes / 60))
    (efficiencyFactor (effectiveEfficiency s))
    (deepSleepFactor s.deep_sleep_percentage)
    (remSleepFactor s.rem_sleep_percentage)
    (interruptionFactor s.interruptions)

/-- Result record of `SleepProcessor._analyze_sleep_efficiency`. -/
structure EfficiencyAnalysis where
  efficiency_percentage : ℚ
  status : String
  message : String
  time_in_bed_minutes : ℚ
  actual_sleep_minutes : ℚ
deriving DecidableEq, Repr

/-- `SleepProcessor._analyze_sleep_efficiency`. -/
def analyzeSleepEfficiency (s : SleepSession) : EfficiencyAnalysis :=
  let eff := effectiveEfficiency s
  let sm : String × String :=
    if 90 ≤ eff then ("excellent", "Very efficient sleep")
    else if 85 ≤ eff then ("good", "Efficient sleep")
    else if 75 ≤ eff then ("fair", "Moderate sleep efficiency")
    else ("poor", "Low sleep efficiency - consider improving sleep habits")
  { efficiency_percentage := pyRound1 eff
    status := sm.1
    message := sm.2
    time_in_bed_minutes := s.duration_minutes
    actual_sleep_minutes := s.total_sleep_minutes }

end SleepProcessor

/-- The C5 scenario session: 420 min duration, deep 90 / rem 100 / light 210 /
awake 20, 1 interruption, supplied efficiency 95. -/
def exC5Session : SleepSession :=
  { start_time := none, end_time := none, duration_minutes := 420
    awake_minutes := 20, light_minutes := 210, deep_minutes := 90
    rem_minutes := 100, interruptions := 1, sleep_efficiency := some 95 }

theorem pyRound1_mono {x y : ℚ} (h : x ≤ y) : pyRound1 x ≤ pyRound1 y := by
  unfold pyRound1
  have h10 : (10 : ℚ) * x ≤ 10 * y := by linarith
  have h1 := roundHalfEven_mono h10
  have h2 : ((roundHalfEven (10 * x) : ℤ) : ℚ) ≤ ((roundHalfEven (10 * y) : ℤ) : ℚ) := by
    exact_mod_cast h1
  linarith

/-- On the region left of the optimum, the deep-sleep table collapses to an
ascending staircase. -/
theorem deepSleepFactor_left {x : ℚ} (hx : x ≤ 25) :
    SleepProcessor.deepSleepFactor x =
      if x < 5 then 20 else if x < 10 then 40 else if x < 15 then 70 else 100 := by
  unfold SleepProcessor.deepSleepFactor
  rcases lt_or_le x 5 with h5 | h5
  · rw [if_neg (by rintro ⟨h, -⟩; linarith), if_neg (by rintro (⟨h, -⟩ | ⟨h, -⟩) <;> linarith),
      if_neg (by rintro (⟨h, -⟩ | ⟨h, -⟩) <;> linarith), if_pos h5]
  · rcases lt_or_le x 10 with h10 | h10
    · rw [if_neg (by rintro ⟨h, -⟩; linarith), if_neg (by rintro (⟨h, -⟩ | ⟨h, -⟩) <;> linarith),
        if_pos (Or.inl ⟨h5, h10⟩), if_neg (by linarith), if_pos h10]
    · rcases lt_or_le x 15 with h15 | h15
      · rw [if_neg (by rintro ⟨h, -⟩; linarith), if_pos (Or.inl ⟨h10, h15⟩),
          if_neg (by linarith), if_neg (by linarith), if_pos h15]
      · rw [if_pos ⟨h15, hx⟩, if_neg (by linarith), if_neg (by linarith), if_neg (by linarith)]

/-- On the region right of the optimum, the deep-sleep table collapses to a
descending staircase. -/
theorem deepSleepFactor_right {x : ℚ} (hx : 25 ≤ x) :
    SleepProcessor.deepSleepFactor x =
      if 35 < x then 20 else if 30 < x then 40 else if 25 < x then 70 else 100 := by
  unfold SleepProcessor.deepSleepFactor
  rcases lt_or_le 35 x with h35 | h35
  · rw [if_neg (by rintro ⟨-, h⟩; linarith), if_neg (by rintro (⟨-, h⟩ | ⟨-, h⟩) <;> linarith),
      if_neg (by rintro (⟨-, h⟩ | ⟨-, h⟩) <;> linarith), if_pos h35]
  · rcases lt_or_le 30 x with h30 | h30
    · rw [if_neg (by rintro ⟨-, h⟩; linarith), if_neg (by rintro (⟨-, h⟩ | ⟨-, h⟩) <;> linarith),
        if_pos (Or.inr ⟨h30, h35⟩), if_neg (by linarith), if_pos h30]
    · rcases lt_or_le 25 x with h25 | h25
      · rw [if_neg (by rintro ⟨-, h⟩; linarith), if_pos (Or.inr ⟨h25, h30⟩),
          if_neg (by linarith), if_neg (by linarith), if_pos h25]
      · have hx25 : x = 25 := le_antisymm h25 hx
        rw [if_pos ⟨by linarith, le_of_eq hx25⟩, if_neg (by linarith), if_neg (by linarith),
          if_neg (by linarith)]

theorem deepSleepFactor_mono_left {a b : ℚ} (hab : a ≤ b) (hb : b ≤ 25) :
    SleepProcessor.deepSleepFactor a ≤ SleepProcessor.deepSleepFactor b := by
  rw [deepSleepFactor_left (le_trans hab hb), deepSleepFactor_left hb]
  split_ifs <;> simp only [not_lt] at * <;> linarith

theorem deepSleepFactor_anti_right {a b : ℚ} (ha : 25 ≤ a) (hab : a ≤ b) :
    SleepProcessor.deepSleepFactor b ≤ SleepProcessor.deepSleepFactor a := by
  rw [deepSleepFactor_right ha, deepSleepFactor_right (le_trans ha hab)]
  split_ifs <;> simp only [not_lt] at * <;> linarith

/-- The weighted combination is monotone in the deep-sleep factor argument
(the other four factor scores held fixed). -/
theorem sleepScoreCore_mono_deep (durF effF remF intF : ℚ) {a b : ℚ} (h : a ≤ b) :
    SleepProcessor.sleepScoreCore durF effF a remF intF ≤
      SleepProcessor.sleepScoreCore durF effF b remF intF := by
  unfold SleepProcessor.sleepScoreCore
  apply pyRound1_mono
  linarith

/-- Under a non-zero duration and absent efficiency, `save` stores the
awake-inclusive efficiency and leaves the duration unchanged. -/
theorem save_proj (s : SleepSession) (heff : s.sleep_efficiency = none)
    (hdur : 0 < s.duration_minutes)
    (htot : 0 < s.awake_minutes + s.light_minutes + s.deep_minutes + s.rem_minutes) :
    (SleepSession.save s).sleep_efficiency =
      some ((s.awake_minutes + s.light_minutes + s.deep_minutes + s.rem_minutes)
        / s.duration_minutes * 100)
    ∧ (SleepSession.save s).duration_minutes = s.duration_minutes := by
  have hd0 : ¬ s.duration_minutes = 0 := ne_of_gt hdur
  have hs1 : (match s.start_time, s.end_time with
      | some st, some en =>
          if s.duration_minutes = 0 then
            { s with duration_minutes := (pyTrunc ((en - st) / 60) : ℚ) }
          else s
      | _, _ => s) = s := by
    rcases s.start_time with _ | st <;> rcases s.end_time with _ | en <;> simp [hd0]
  simp only [SleepSession.save]
  rw [hs1, heff]
  simp only [truthyQ, Option.isNone_none, true_and]
  rw [if_pos (And.intro hdur htot)]
  rcases hq : s.quality_score with _ | q
  · simp [hq]
  · by_cases h0 : q = 0
    · simp [hq, h0]
    · simp only [hq, h0, if_false]
      split_ifs <;> simp

/-- C5: `SleepProcessor._calculate_sleep_score` is the rounded weighted sum
(duration 30%, efficiency 25%, deep 20%, REM 15%, interruptions 10%) of the
piecewise factor tables, and the scenario session (420 min, deep 90, rem 100,
light 210, awake 20, 1 interruption, efficiency 95) scores 100 ≥ 85
(the "excellent" band). -/
theorem sleepScore_weighted_sum_and_scenario_excellent :
    (∀ s : SleepSession,
      SleepProcessor.calculateSleepScore s =
        pyRound1 (SleepProcessor.durationFactor (s.duration_minutes / 60) * 0.30
          + SleepProcessor.efficiencyFactor (SleepProcessor.effectiveEfficiency s) * 0.25
          + SleepProcessor.deepSleepFactor s.deep_sleep_percentage * 0.20
          + SleepProcessor.remSleepFactor s.rem_sleep_percentage * 0.15
          + SleepProcessor.interruptionFactor s.interruptions * 0.10))
    ∧ SleepProcessor.calculateSleepScore exC5Session = 100
    ∧ (85 : ℚ) ≤ SleepProcessor.calculateSleepScore exC5Session := by
  have hval : SleepProcessor.calculateSleepScore exC5Session = 100 := by
    norm_num [SleepProcessor.calculateSleepScore, SleepProcessor.sleepScoreCore,
      SleepProcessor.durationFactor, SleepProcessor.efficiencyFactor,
      SleepProcessor.deepSleepFactor, SleepProcessor.remSleepFactor,
      SleepProcessor.interruptionFactor, SleepProcessor.effectiveEfficiency, truthyQ,
      SleepSession.deep_sleep_percentage, SleepSession.rem_sleep_percentage,
      SleepSession.total_sleep_minutes, exC5Session, pyRound1, roundHalfEven]
  exact ⟨fun s => rfl, hval, by rw [hval]; norm_num⟩

/-- Two sessions differing only in `deep_minutes` (20 vs 25, both under a 25%
deep share): raising the deep share lowers the REM share across the 20% band,
so the score drops from 75 to 70.5. -/
def exC6Low : SleepSession :=
  { start_time := none, end_time := none, duration_minutes := 600
    awake_minutes := 0, light_minutes := 380, deep_minutes := 20
    rem_minutes := 100, interruptions := 0, sleep_efficiency := some 95 }

/-- The `exC6Low` session with `deep_minutes` raised to 25. -/
def exC6High : SleepSession :=
  { exC6Low with deep_minutes := 25 }

/-- C6 counterexample: with every other session field fixed, raising
deep-sleep percentage within [0, 25] can strictly LOWER the score
(the REM percentage, derived from the same stage totals, shifts bands). -/
theorem sleepScore_deep_pct_monotonicity_counterexample :
    exC6Low.duration_minutes = exC6High.duration_minutes
    ∧ exC6Low.sleep_efficiency = exC6High.sleep_efficiency
    ∧ exC6Low.light_minutes = exC6High.light_minutes
    ∧ exC6Low.rem_minutes = exC6High.rem_minutes
    ∧ exC6Low.awake_minutes = exC6High.awake_minutes
    ∧ exC6Low.interruptions = exC6High.interruptions
    ∧ (0 : ℚ) ≤ exC6Low.deep_sleep_percentage
    ∧ exC6Low.deep_sleep_percentage < exC6High.deep_sleep_percentage
    ∧ exC6High.deep_sleep_percentage ≤ 25
    ∧ SleepProcessor.calculateSleepScore exC6Low = 75
    ∧ SleepProcessor.calculateSleepScore exC6High = 70.5
    ∧ SleepProcessor.calculateSleepScore exC6High <
        SleepProcessor.calculateSleepScore exC6Low := by
  refine ⟨rfl, rfl, rfl, rfl, rfl, rfl, ?_, ?_, ?_, ?_, ?_, ?_⟩ <;>
  norm_num [SleepProcessor.calculateSleepScore, SleepProcessor.sleepScoreCore,
    SleepProcessor.durationFactor, SleepProcessor.efficiencyFactor,
    SleepProcessor.deepSleepFactor, SleepProcessor.remSleepFactor,
    SleepProcessor.interruptionFactor, SleepProcessor.effectiveEfficiency, truthyQ,
    SleepSession.deep_sleep_percentage, SleepSession.rem_sleep_percentage,
    SleepSession.total_sleep_minutes, exC6Low, exC6High, pyRound1, roundHalfEven]

/-- C6 (amended): the score is unimodal in the deep-sleep percentage ARGUMENT
of the deep-sleep factor when the other four factor scores are held fixed
(non-decreasing up to the 15–25% band, non-increasing past 25%); and
`_calculate_sleep_score` is exactly this combination instantiated at the
session's derived factor inputs. -/
theorem sleepScore_unimodal_in_deep_pct_amended :
    (∀ s : SleepSession, SleepProcessor.calculateSleepScore s =
      SleepProcessor.sleepScoreCore (SleepProcessor.durationFactor (s.duration_minutes / 60))
        (SleepProcessor.efficiencyFactor (SleepProcessor.effectiveEfficiency s))
        (SleepProcessor.deepSleepFactor s.deep_sleep_percentage)
        (SleepProcessor.remSleepFactor s.rem_sleep_percentage)
        (SleepProcessor.interruptionFactor s.interruptions))
    ∧ (∀ durF effF remF intF dpa dpb : ℚ, dpa ≤ dpb → dpb ≤ 25 →
        SleepProcessor.sleepScoreCore durF effF (SleepProcessor.deepSleepFactor dpa) remF intF ≤
          SleepProcessor.sleepScoreCore durF effF (SleepProcessor.deepSleepFactor dpb) remF intF)
    ∧ (∀ durF effF remF intF dpa dpb : ℚ, 25 ≤ dpa → dpa ≤ dpb →
        SleepProcessor.sleepScoreCore durF effF (SleepProcessor.deepSleepFactor dpb) remF intF ≤
          SleepProcessor.sleepScoreCore durF effF (SleepProcessor.deepSleepFactor dpa) remF intF) := by
  refine ⟨fun s => rfl, ?_, ?_⟩
  · intro durF effF remF intF dpa dpb h1 h2
    exact sleepScoreCore_mono_deep _ _ _ _ (deepSleepFactor_mono_left h1 h2)
  · intro durF effF remF intF dpa dpb h1 h2
    exact sleepScoreCore_mono_deep _ _ _ _ (deepSleepFactor_anti_right h1 h2)

/-- Witness for the amended C6 theorem at concrete inputs. -/
theorem sleepScore_unimodal_in_deep_pct_amended_witness :
    (10 : ℚ) ≤ 20 ∧ (20 : ℚ) ≤ 25
    ∧ SleepProcessor.sleepScoreCore 100 100 (SleepProcessor.deepSleepFactor 10) 100 100 ≤
        SleepProcessor.sleepScoreCore 100 100 (SleepProcessor.deepSleepFactor 20) 100 100
    ∧ (25 : ℚ) ≤ 30 ∧ (30 : ℚ) ≤ 40
    ∧ SleepProcessor.sleepScoreCore 100 100 (SleepProcessor.deepSleepFactor 40) 100 100 ≤
        SleepProcessor.sleepScoreCore 100 100 (SleepProcessor.deepSleepFactor 30) 100 100 :=
  ⟨by norm_num, by norm_num,
    sleepScore_unimodal_in_deep_pct_amended.2.1 100 100 100 100 10 20
      (by norm_num) (by norm_num),
    by norm_num, by norm_num,
    sleepScore_unimodal_in_deep_pct_amended.2.2 100 100 100 100 30 40
      (by norm_num) (by norm_num)⟩

/-- Session with awake 50 / light 30 / deep 10 / rem 10 over 100 minutes and
no supplied efficiency: `save` derives 100%, not the awake-free 50%. -/
def exC8Eff : SleepSession :=
  { start_time := none, end_time := none, duration_minutes := 100
    awake_minutes := 50, light_minutes := 30, deep_minutes := 10
    rem_minutes := 10, interruptions := 0, sleep_efficiency := none }

/-- Session with only stage minutes populated (no start/end, duration unset):
`save` leaves the duration at 0 instead of deriving the stage-minute sum 50. -/
def exC8Dur : SleepSession :=
  { start_time := none, end_time := none, duration_minutes := 0
    awake_minutes := 0, light_minutes := 30, deep_minutes := 10, rem_minutes := 10 }

/-- C8 counterexample: `SleepSession.save` derives efficiency from ALL stage
minutes (awake included), and never derives the duration from stage minutes
when start/end are absent. -/
theorem efficiency_roundtrip_counterexample :
    (SleepSession.save exC8Eff).sleep_efficiency = some 100
    ∧ exC8Eff.total_sleep_minutes / exC8Eff.duration_minutes * 100 = 50
    ∧ some (100 : ℚ) ≠ some (50 : ℚ)
    ∧ exC8Dur.start_time = none ∧ exC8Dur.end_time = none
    ∧ (SleepSession.save exC8Dur).duration_minutes = 0
    ∧ exC8Dur.light_minutes + exC8Dur.deep_minutes + exC8Dur.rem_minutes = 50
    ∧ (0 : ℚ) ≠ 50 := by
  refine ⟨?_, ?_, ?_, rfl, rfl, ?_, ?_, ?_⟩ <;>
  norm_num [SleepSession.save, truthyQ, SleepSession.total_sleep_minutes, exC8Eff, exC8Dur]

/-- C8 (amended): for a session without supplied efficiency and positive
duration, the analysis fallback uses `total_sleep = light+deep+rem`
(awake excluded), but `SleepSession.save` stores
`(awake+light+deep+rem)/duration*100` and keeps `duration_minutes` as is. -/
theorem efficiency_derivation_amended (s : SleepSession)
    (heff : s.sleep_efficiency = none) (hdur : 0 < s.duration_minutes)
    (htot : 0 < s.awake_minutes + s.light_minutes + s.deep_minutes + s.rem_minutes) :
    (SleepSession.save s).sleep_efficiency =
      some ((s.awake_minutes + s.light_minutes + s.deep_minutes + s.rem_minutes)
        / s.duration_minutes * 100)
    ∧ (SleepProcessor.analyzeSleepEfficiency s).efficiency_percentage =
      pyRound1 (s.total_sleep_minutes / s.duration_minutes * 100)
    ∧ (SleepSession.save s).duration_minutes = s.duration_minutes := by
  obtain ⟨h1, h2⟩ := save_proj s heff hdur htot
  refine ⟨h1, ?_, h2⟩
  simp [SleepProcessor.analyzeSleepEfficiency, SleepProcessor.effectiveEfficiency,
    heff, truthyQ, hdur]

/-- A session exercising the amended C8 theorem. -/
def exC8W : SleepSession :=
  { start_time := none, end_time := none, duration_minutes := 480
    awake_minutes := 30, light_minutes := 300, deep_minutes := 90
    rem_minutes := 60, interruptions := 2, sleep_efficiency := none }

/-- Witness for the amended C8 theorem at a concrete session. -/
theorem efficiency_derivation_amended_witness :
    exC8W.sleep_efficiency = none ∧ (0 : ℚ) < exC8W.duration_minutes
    ∧ (0 : ℚ) < exC8W.awake_minutes + exC8W.light_minutes
        + exC8W.deep_minutes + exC8W.rem_minutes
    ∧ (SleepSession.save exC8W).sleep_efficiency =
        some ((exC8W.awake_minutes + exC8W.light_minutes + exC8W.deep_minutes
          + exC8W.rem_minutes) / exC8W.duration_minutes * 100)
    ∧ (SleepProcessor.analyzeSleepEfficiency exC8W).efficiency_percentage =
        pyRound1 (exC8W.total_sleep_minutes / exC8W.duration_minutes * 100) :=
  ⟨rfl, by norm_num [exC8W], by norm_num [exC8W],
    (efficiency_derivation_amended exC8W rfl (by norm_num [exC8W])
      (by norm_num [exC8W])).1,
    (efficiency_derivation_amended exC8W rfl (by norm_num [exC8W])
      (by norm_num [exC8W])).2.1⟩

/-- Python `round(x, 3)` (idealised to exact decimal arithmetic). -/
def pyRound3 (x : ℚ) : ℚ := (roundHalfEven (1000 * x) : ℚ) / 1000

/-- Python `round(x, 4)` (idealised to exact decimal arithmetic). -/
def pyRound4 (x : ℚ) : ℚ := (roundHalfEven (10000 * x) : ℚ) / 10000

/-- `min(values)` over a rational list (0 on empty, unreachable in use). -/
def minQ : List ℚ → ℚ
  | [] => 0
  | x :: r => r.foldl min x

/-- `max(values)` over a rational list (0 on empty, unreachable in use). -/
def maxQ : List ℚ → ℚ
  | [] => 0
  | x :: r => r.foldl max x

/-- Least-squares slope of `np.polyfit(arange(n), ys, 1)`:
`slope = Σ(i-x̄)(yᵢ-ȳ) / Σ(i-x̄)²` with x the indices `0..n-1`. -/
def slopeOf (ys : List ℚ) : ℚ :=
  let xbar : ℚ := ((ys.length : ℚ) - 1) / 2
  let ybar := qmean ys
  let sxy := (ys.enum.map (fun p => ((p.1 : ℚ) - xbar) * (p.2 - ybar))).sum
  let sxx := (ys.enum.map (fun p => ((p.1 : ℚ) - xbar) ^ 2)).sum
  sxy / sxx

/-- Least-squares intercept of the same fit. -/
def interceptOf (ys : List ℚ) : ℚ :=
  qmean ys - slopeOf ys * (((ys.length : ℚ) - 1) / 2)

/-- `r_squared = 1 - ss_res/ss_tot if ss_tot != 0 else 0`, shared by
`HealthAnalyzer._extract_trend` and `HeartRateProcessor._analyze_trend`. -/
def rSquaredOf (ys : List ℚ) : ℚ :=
  let ybar := qmean ys
  let ss_res := (ys.enum.map
    (fun p => (p.2 - (slopeOf ys * (p.1 : ℚ) + interceptOf ys)) ^ 2)).sum
  let ss_tot := (ys.enum.map (fun p => (p.2 - ybar) ^ 2)).sum
  if ss_tot ≠ 0 then 1 - ss_res / ss_tot else 0

namespace HealthAnalyzer

/-- Direction rule of `HealthAnalyzer._extract_trend`:
increasing/decreasing require R² > 0.3, otherwise stable. -/
def directionOf (ys : List ℚ) : String :=
  if 0 < slopeOf ys ∧ 3/10 < rSquaredOf ys then "increasing"
  else if slopeOf ys < 0 ∧ 3/10 < rSquaredOf ys then "decreasing"
  else "stable"

/-- Return value of `HealthAnalyzer._extract_trend`: either the
insufficient-data status dict or the full trend dict. `std_sq` carries the
square of the reported standard deviation (pre-rounding). -/
inductive TrendResult where
  | insufficientData (count : ℕ)
  | result (average : ℚ) (std_sq : ℚ) (trend_direction : String)
      (trend_strength : ℚ) (slope : ℚ) (percentage_change : ℚ)
      (data_points : ℕ) (current_value : ℚ) (min_value : ℚ) (max_value : ℚ)
deriving DecidableEq, Repr

/-- Trend direction reported by a `TrendResult`, when one was produced. -/
def TrendResult.directionOpt : TrendResult → Option String
  | .insufficientData _ => none
  | .result _ _ d _ _ _ _ _ _ _ => some d

/-- `HealthAnalyzer._extract_trend`: the input is the per-summary field
values (`None` entries are skipped by the extraction loop). -/
def extract_trend (raw : List (Option ℚ)) : TrendResult :=
  let values := raw.filterMap id
  if values.length < 2 then .insufficientData values.length
  else
    let first := values.headI
    let last := (values.getLast?).getD 0
    let pct := if first ≠ 0 then (last - first) / first * 100 else 0
    .result (pyRound2 (qmean values)) (qvarPop values) (directionOf values)
      (pyRound3 (rSquaredOf values)) (pyRound4 (slopeOf values)) (pyRound2 pct)
      values.length last (minQ values) (maxQ values)

end HealthAnalyzer

namespace HeartRateProcessor

/-- `HeartRateProcessor._interpret_trend`. -/
def interpretTrend (direction : String) (strength : ℚ) : String :=
  if strength < 3/10 then "No clear trend detected."
  else if direction = "up" then
    "Heart rate showing an increasing trend. This may indicate increased stress, dehydration, or illness."
  else if direction = "down" then
    "Heart rate showing a decreasing trend. This may indicate improving fitness or better recovery."
  else "Heart rate is stable, which is generally a positive sign."

/-- Return dict of `HeartRateProcessor._analyze_trend`; the short-series
branch carries only direction and strength. -/
structure HRTrend where
  direction : String
  strength : ℚ
  slope : Option ℚ := none
  interpretation : Option String := none
deriving DecidableEq, Repr

/-- `HeartRateProcessor._analyze_trend`: slope-thresholded direction
(`up`/`down`/`stable`), R² reported as strength. -/
def analyzeTrend (bpm_values : List ℚ) : HRTrend :=
  if bpm_values.length < 2 then { direction := "insufficient_data", strength := 0 }
  else
    let slope := slopeOf bpm_values
    let direction :=
      if 1/10 < slope then "up" else if slope < -(1/10) then "down" else "stable"
    let rsq := rSquaredOf bpm_values
    { direction := direction, strength := pyRound3 rsq, slope := some (pyRound3 slope)
      interpretation := some (interpretTrend direction rsq) }

end HeartRateProcessor

/-- C7: `_extract_trend` reports "increasing"/"decreasing" only when R² > 0.3
and "stable" otherwise; the noisy flat series [4000,4200,3900,4100,4050]
comes out "stable" (its fitted slope is 0 and its R² is 0). -/
theorem trend_direction_gated_by_r_squared :
    (∀ ys : List ℚ,
      (HealthAnalyzer.directionOf ys = "increasing"
        ∨ HealthAnalyzer.directionOf ys = "decreasing") → 3/10 < rSquaredOf ys)
    ∧ (∀ ys : List ℚ, ¬ 3/10 < rSquaredOf ys →
        HealthAnalyzer.directionOf ys = "stable")
    ∧ (∀ raw : List (Option ℚ), ¬ (raw.filterMap id).length < 2 →
        (HealthAnalyzer.extract_trend raw).directionOpt =
          some (HealthAnalyzer.directionOf (raw.filterMap id)))
    ∧ (HealthAnalyzer.extract_trend
        [some 4000, some 4200, some 3900, some 4100, some 4050]).directionOpt
        = some "stable" := by
  refine ⟨?_, ?_, ?_, ?_⟩
  · intro ys h
    unfold HealthAnalyzer.directionOf at h
    split_ifs at h with h1 h2
    · exact h1.2
    · exact h2.2
    · rcases h with h | h <;> exact absurd h (by decide)
  · intro ys h
    unfold HealthAnalyzer.directionOf
    rw [if_neg (fun hc => h hc.2), if_neg (fun hc => h hc.2)]
  · intro raw h
    simp only [HealthAnalyzer.extract_trend]
    rw [if_neg h]
    rfl
  · norm_num [HealthAnalyzer.extract_trend, HealthAnalyzer.TrendResult.directionOpt,
      HealthAnalyzer.directionOf, rSquaredOf, slopeOf, interceptOf, qmean,
      List.enum, List.enumFrom, List.filterMap]

/-- Witness for the R²-gating theorem at concrete series. -/
theorem trend_direction_gated_by_r_squared_witness :
    HealthAnalyzer.directionOf [0, 10, 20] = "increasing"
    ∧ 3/10 < rSquaredOf [0, 10, 20]
    ∧ ¬ (3/10 : ℚ) < rSquaredOf [4000, 4200, 3900, 4100, 4050]
    ∧ HealthAnalyzer.directionOf [4000, 4200, 3900, 4100, 4050] = "stable"
    ∧ ¬ (([some (4000 : ℚ), some 4200, some 3900, some 4100, some 4050]
          : List (Option ℚ)).filterMap id).length < 2
    ∧ (HealthAnalyzer.extract_trend
        [some 4000, some 4200, some 3900, some 4100, some 4050]).directionOpt =
        some (HealthAnalyzer.directionOf
          (([some 4000, some 4200, some 3900, some 4100, some 4050]
            : List (Option ℚ)).filterMap id)) := by
  have hdir : HealthAnalyzer.directionOf [0, 10, 20] = "increasing" := by
    norm_num [HealthAnalyzer.directionOf, rSquaredOf, slopeOf, interceptOf, qmean,
      List.enum, List.enumFrom]
  have hflat : ¬ (3/10 : ℚ) < rSquaredOf [4000, 4200, 3900, 4100, 4050] := by
    norm_num [rSquaredOf, slopeOf, interceptOf, qmean, List.enum, List.enumFrom]
  have hlen : ¬ (([some (4000 : ℚ), some 4200, some 3900, some 4100, some 4050]
      : List (Option ℚ)).filterMap id).length < 2 := by simp
  exact ⟨hdir, trend_direction_gated_by_r_squared.1 [0, 10, 20] (Or.inl hdir),
    hflat, trend_direction_gated_by_r_squared.2.1 _ hflat,
    hlen, trend_direction_gated_by_r_squared.2.2.1 _ hlen⟩

/-- C9: with fewer than 2 data points both trend functions return their
explicit insufficient-data value instead of a numeric trend. -/
theorem insufficient_data_short_series :
    (∀ raw : List (Option ℚ), (raw.filterMap id).length < 2 →
      HealthAnalyzer.extract_trend raw =
        HealthAnalyzer.TrendResult.insufficientData (raw.filterMap id).length)
    ∧ (∀ bpm_values : List ℚ, bpm_values.length < 2 →
      HeartRateProcessor.analyzeTrend bpm_values =
        { direction := "insufficient_data", strength := 0 }) := by
  constructor
  · intro raw h
    simp only [HealthAnalyzer.extract_trend]
    rw [if_pos h]
  · intro b h
    simp only [HeartRateProcessor.analyzeTrend]
    rw [if_pos h]

/-- Witness for the insufficient-data theorem at one-point series. -/
theorem insufficient_data_short_series_witness :
    (([some 4] : List (Option ℚ)).filterMap id).length < 2
    ∧ HealthAnalyzer.extract_trend [some 4] =
        HealthAnalyzer.TrendResult.insufficientData 1
    ∧ ([70] : List ℚ).length < 2
    ∧ HeartRateProcessor.analyzeTrend [70] =
        { direction := "insufficient_data", strength := 0 } := by
  have h1 : (([some 4] : List (Option ℚ)).filterMap id).length < 2 := by simp
  have h2 : ([70] : List ℚ).length < 2 := by simp
  refine ⟨h1, ?_, h2, insufficient_data_short_series.2 [70] h2⟩
  have h3 := insufficient_data_short_series.1 [some 4] h1
  simpa using h3

/-- `truthyQ o = some x` only when the field really holds `x`. -/
theorem truthyQ_eq_some {o : Option ℚ} {x : ℚ} (h : truthyQ o = some x) :
    o = some x := by
  rcases o with _ | a
  · simp [truthyQ] at h
  · by_cases h0 : a = 0
    · simp [truthyQ, h0] at h
    · simpa [truthyQ, h0] using h

namespace HealthAnalyzer

/-- The `DailySummary` fields read by `_calculate_daily_health_score`. -/
structure DailySummary where
  total_steps : Option ℚ := none
  sleep_duration_minutes : Option ℚ := none
  sleep_score : Option ℚ := none
  resting_heart_rate : Option ℚ := none
  recovery_score : Option ℚ := none
deriving DecidableEq, Repr

/-- Activity sub-score: `min(100, (steps/10000)*100)` with
`steps = total_steps or 0`. -/
def activitySubScore (ds : DailySummary) : ℚ :=
  let steps := (truthyQ ds.total_steps).getD 0
  min 100 (steps / 10000 * 100)

/-- Sleep sub-score: device `sleep_score` when truthy, else the duration
bucket, else 50. -/
def sleepSubScore (ds : DailySummary) : ℚ :=
  match truthyQ ds.sleep_score with
  | some q => q
  | none =>
    match truthyQ ds.sleep_duration_minutes with
    | some dur =>
        let h := dur / 60
        if 7 ≤ h ∧ h ≤ 9 then 90
        else if (6 ≤ h ∧ h < 7) ∨ (9 < h ∧ h ≤ 10) then 70
        else if (5 ≤ h ∧ h < 6) ∨ (10 < h ∧ h ≤ 11) then 50
        else 30
    | none => 50

/-- Heart sub-score from the resting-heart-rate bucket, default 70. -/
def heartSubScore (ds : DailySummary) : ℚ :=
  match truthyQ ds.resting_heart_rate with
  | some hr => if hr < 60 then 90 else if hr < 70 then 80 else if hr < 80 then 70 else 50
  | none => 70

/-- Recovery sub-score: device `recovery_score` when truthy, default 75. -/
def recoverySubScore (ds : DailySummary) : ℚ :=
  (truthyQ ds.recovery_score).getD 75

/-- `HealthAnalyzer._calculate_daily_health_score`: the weighted combination
activity 0.35, sleep 0.35, heart 0.20, recovery 0.10, rounded to one
decimal. No clamp is applied to the result. -/
def calculate_daily_health_score (ds : DailySummary) : ℚ :=
  pyRound1 (activitySubScore ds * 0.35 + sleepSubScore ds * 0.35
    + heartSubScore ds * 0.20 + recoverySubScore ds * 0.10)

end HealthAnalyzer

/-- Summary whose stored (device-supplied) sleep score is 1000. -/
def exC1Bad : HealthAnalyzer.DailySummary := { sleep_score := some 1000 }

/-- C1 counterexample: with an extreme stored `sleep_score` of 1000 the
daily overall score is 371.5, far outside [0,100] — the code never clamps
the weighted total. -/
theorem overall_score_not_clamped_counterexample :
    HealthAnalyzer.calculate_daily_health_score exC1Bad = 371.5
    ∧ ¬ HealthAnalyzer.calculate_daily_health_score exC1Bad ≤ 100 := by
  have h : HealthAnalyzer.calculate_daily_health_score exC1Bad = 371.5 := by
    norm_num [HealthAnalyzer.calculate_daily_health_score,
      HealthAnalyzer.activitySubScore, HealthAnalyzer.sleepSubScore,
      HealthAnalyzer.heartSubScore, HealthAnalyzer.recoverySubScore,
      truthyQ, exC1Bad, pyRound1, roundHalfEven]
  exact ⟨h, by rw [h]; norm_num⟩

/-- C1 (amended): the daily overall score lies in [0,100] provided the
stored sub-score fields are themselves in range (steps non-negative,
sleep/recovery scores within [0,100]); extreme stored sub-scores propagate
unclamped. -/
theorem daily_health_score_range_amended (ds : HealthAnalyzer.DailySummary)
    (hsteps : ∀ q, ds.total_steps = some q → 0 ≤ q)
    (hsleep : ∀ q, ds.sleep_score = some q → 0 ≤ q ∧ q ≤ 100)
    (hrec : ∀ q, ds.recovery_score = some q → 0 ≤ q ∧ q ≤ 100) :
    0 ≤ HealthAnalyzer.calculate_daily_health_score ds
    ∧ HealthAnalyzer.calculate_daily_health_score ds ≤ 100 := by
  have hact : 0 ≤ HealthAnalyzer.activitySubScore ds
      ∧ HealthAnalyzer.activitySubScore ds ≤ 100 := by
    unfold HealthAnalyzer.activitySubScore
    have hs : 0 ≤ (truthyQ ds.total_steps).getD 0 := by
      rcases hds : ds.total_steps with _ | q
      · simp [truthyQ]
      · by_cases h0 : q = 0
        · simp [truthyQ, h0]
        · simpa [truthyQ, h0] using hsteps q hds
    refine ⟨le_min (by norm_num) ?_, min_le_left _ _⟩
    have := div_nonneg hs (by norm_num : (0:ℚ) ≤ 10000)
    linarith
  have hsl : 0 ≤ HealthAnalyzer.sleepSubScore ds
      ∧ HealthAnalyzer.sleepSubScore ds ≤ 100 := by
    unfold HealthAnalyzer.sleepSubScore
    rcases hds : truthyQ ds.sleep_score with _ | q
    · rcases truthyQ ds.sleep_duration_minutes with _ | d
      · norm_num
      · simp only
        split_ifs <;> norm_num
    · simpa using hsleep q (truthyQ_eq_some hds)
  have hh : 0 ≤ HealthAnalyzer.heartSubScore ds
      ∧ HealthAnalyzer.heartSubScore ds ≤ 100 := by
    unfold HealthAnalyzer.heartSubScore
    rcases truthyQ ds.resting_heart_rate with _ | hr
    · norm_num
    · simp only
      split_ifs <;> norm_num
  have hrc : 0 ≤ HealthAnalyzer.recoverySubScore ds
      ∧ HealthAnalyzer.recoverySubScore ds ≤ 100 := by
    unfold HealthAnalyzer.recoverySubScore
    rcases hds : truthyQ ds.recovery_score with _ | q
    · norm_num
    · simpa using hrec q (truthyQ_eq_some hds)
  have h0 : pyRound1 0 = 0 := by norm_num [pyRound1, roundHalfEven]
  have h100 : pyRound1 100 = 100 := by norm_num [pyRound1, roundHalfEven]
  unfold HealthAnalyzer.calculate_daily_health_score
  constructor
  · rw [← h0]
    exact pyRound1_mono (by nlinarith [hact.1, hsl.1, hh.1, hrc.1])
  · rw [← h100]
    exact pyRound1_mono (by nlinarith [hact.2, hsl.2, hh.2, hrc.2])

/-- In-range summary exercising the amended C1 theorem. -/
def exC1Good : HealthAnalyzer.DailySummary :=
  { total_steps := some 8000, sleep_duration_minutes := some 450
    sleep_score := none, resting_heart_rate := some 65, recovery_score := some 80 }

/-- Witness for the amended C1 theorem at a concrete summary. -/
theorem daily_health_score_range_amended_witness :
    0 ≤ HealthAnalyzer.calculate_daily_health_score exC1Good
    ∧ HealthAnalyzer.calculate_daily_health_score exC1Good ≤ 100 :=
  daily_health_score_range_amended exC1Good
    (fun q h => by simp [exC1Good] at h; subst h; norm_num)
    (fun q h => by simp [exC1Good] at h)
    (fun q h => by simp [exC1Good] at h; subst h; norm_num)

namespace HeartRateProcessor

/-- Immutable measurement core of a `HeartRateReading`:
primary key, bpm, timestamp (epoch seconds) and context. -/
structure HRCore where
  id : ℕ
  bpm : ℚ
  timestamp : ℚ
  context : String
deriving DecidableEq, Repr

/-- `health_data.models.HeartRateReading`: the measurement core plus the two
mutable anomaly-marking fields written by `_mark_anomalies_in_database`. -/
structure HeartRateReading where
  core : HRCore
  is_anomaly : Bool := false
  anomaly_type : String := ""
deriving DecidableEq, Repr

/-- One anomaly dict of `detect_anomalies`. Square-rooted quantities of the
source (`z_score`, `rmssd`) are carried squared (`zSq`, `rmssdSq`, in the
latter case in ms²); fields of variants that a dict does not carry are
`none`. -/
structure Anomaly where
  type : String
  severity : String
  value : Option ℚ := none
  timestamp : Option ℚ := none
  zSq : Option ℚ := none
  context : Option String := none
  reading_id : Option ℕ := none
  average_value : Option ℚ := none
  start_time : Option ℚ := none
  end_time : Option ℚ := none
  duration_minutes : Option ℚ := none
  unit : Option String := none
  metric : Option String := none
  threshold : Option ℚ := none
  rmssdSq : Option ℚ := none
  interpretation : Option String := none
deriving DecidableEq, Repr

/-- Loop body of the point-anomaly pass of `detect_anomalies`:
`z = (bpm - mean)/std if std > 0 else 0`; flag when `|z| > 3`
(equivalently, for std > 0, `(bpm-mean)² > 9·var`); type by the sign of z;
severity `critical` when `|z| > 4` (`(bpm-mean)² > 16·var`) else `high`. -/
def pointAnomalyOf (mean_bpm var_bpm : ℚ) (r : HRCore) : Option Anomaly :=
  let dev := r.bpm - mean_bpm
  if 0 < var_bpm ∧ 9 * var_bpm < dev ^ 2 then
    some { type := if 0 < dev then "high_heart_rate" else "low_heart_rate"
           value := some r.bpm
           timestamp := some r.timestamp
           zSq := some (dev ^ 2 / var_bpm)
           severity := if 16 * var_bpm < dev ^ 2 then "critical" else "high"
           context := some r.context
           reading_id := some r.id }
  else none

/-- The per-reading point-anomaly pass over the window. -/
def pointAnomalies (cs : List HRCore) (mean_bpm var_bpm : ℚ) : List Anomaly :=
  cs.filterMap (pointAnomalyOf mean_bpm var_bpm)

/-- Sustained-high scan of `_detect_patterns`: the first window of 10
consecutive readings whose mean exceeds `mean + 2·std`
(embedded as `d > 0 ∧ d² > 4·var` for `d = window_mean - mean`). -/
def firstSustained (cs : List HRCore) (mean_bpm var_bpm : ℚ) : Option Anomaly :=
  (List.range (cs.length - 10 + 1)).findSome? fun i =>
    let w := (cs.drop i).take 10
    let wts := w.map (·.timestamp)
    let wm := qmean (w.map (·.bpm))
    let d := wm - mean_bpm
    if 0 < d ∧ 4 * var_bpm < d ^ 2 then
      some { type := "sustained_high_heart_rate"
             severity := "medium"
             average_value := some (pyRound1 wm)
             start_time := some wts.headI
             end_time := some (wts.getLast?.getD 0)
             duration_minutes := some ((wts.getLast?.getD 0 - wts.headI) / 60)
             context := some "sustained_high" }
    else none

/-- Successive differences, `ts[i] - ts[i-1]` — both the RR-interval loop of
`_detect_hrv_issues` and `np.diff`. -/
def diffsOf : List ℚ → List ℚ
  | a :: b :: rest => (b - a) :: diffsOf (b :: rest)
  | _ => []

/-- The mean squared successive RR-interval difference (sec²); the source's
RMSSD equals `sqrt(hrvMsq)·1000` ms. -/
def hrvMsq (ts : List ℚ) : ℚ :=
  qmean ((diffsOf (diffsOf ts)).map (· ^ 2))

/-- `_detect_hrv_issues` as a function of the reading timestamps: bpm values
are never consulted.  `rmssd < 10` (ms) is embedded as `10⁶·hrvMsq < 100`,
`rmssd < 20` as `10⁶·hrvMsq < 400`. -/
def hrvOfTimestamps (ts : List ℚ) : List Anomaly :=
  if ts.length < 30 then []
  else
    let rr := diffsOf ts
    if rr.length < 20 then []
    else
      let msqMs := 1000000 * hrvMsq ts
      let lastTs := ts.getLast?.getD 0
      if msqMs < 100 then
        [{ type := "very_low_hrv", severity := "high", rmssdSq := some msqMs
           unit := some "ms", metric := some "RMSSD", threshold := some 10
           timestamp := some lastTs
           interpretation :=
             some "Very low HRV may indicate high stress, fatigue, or illness" }]
      else if msqMs < 400 then
        [{ type := "low_hrv", severity := "medium", rmssdSq := some msqMs
           unit := some "ms", metric := some "RMSSD", threshold := some 20
           timestamp := some lastTs
           interpretation :=
             some "Low HRV may indicate increased stress or poor recovery" }]
      else []

/-- `HeartRateProcessor._detect_hrv_issues`. -/
def detect_hrv_issues (cs : List HRCore) : List Anomaly :=
  hrvOfTimestamps (cs.map (·.timestamp))

/-- `HeartRateProcessor._detect_patterns`: nothing under 20 readings, else
the first sustained window (if any) followed by the HRV issues. -/
def detect_patterns (cs : List HRCore) (mean_bpm var_bpm : ℚ) : List Anomaly :=
  if cs.length < 20 then []
  else (firstSustained cs mean_bpm var_bpm).toList ++ detect_hrv_issues cs

/-- `reading.is_anomaly = True; reading.anomaly_type = anomaly['type']`. -/
def setMark (a : Anomaly) (r : HeartRateReading) : HeartRateReading :=
  { r with is_anomaly := true, anomaly_type := a.type }

/-- Effect of one anomaly dict on one reading: anomalies without a
`reading_id` mark nothing; otherwise the reading with the matching id is
marked. -/
def applyOne (r : HeartRateReading) (a : Anomaly) : HeartRateReading :=
  match a.reading_id with
  | some i => if i = r.core.id then setMark a r else r
  | none => r

/-- `_mark_anomalies_in_database` over the window state: each reading ends
up with the net effect of the anomaly loop (the source looks each
`reading_id` up by primary key and saves the mark). -/
def markAnomalies (anoms : List Anomaly) (rs : List HeartRateReading) :
    List HeartRateReading :=
  rs.map (fun r => anoms.foldl applyOne r)

/-- The anomaly list computed from the window's measurement cores. -/
def anomaliesOfCores (cs : List HRCore) : List Anomaly :=
  pointAnomalies cs (qmean (cs.map (·.bpm))) (qvarPop (cs.map (·.bpm)))
    ++ detect_patterns cs (qmean (cs.map (·.bpm))) (qvarPop (cs.map (·.bpm)))

/-- `HeartRateProcessor.detect_anomalies` on the time-ordered window:
returns the anomaly list and the post-marking window state ([] and the
untouched state under 10 readings). -/
def detect_anomalies (rs : List HeartRateReading) :
    List Anomaly × List HeartRateReading :=
  if rs.length < 10 then ([], rs)
  else
    let anomalies := anomaliesOfCores (rs.map (·.core))
    (anomalies, markAnomalies anomalies rs)

end HeartRateProcessor

namespace HeartRateProcessor

/-- Marking never changes the measurement core. -/
theorem applyOne_core (r : HeartRateReading) (a : Anomaly) :
    (applyOne r a).core = r.core := by
  unfold applyOne
  rcases a.reading_id with _ | i
  · rfl
  · dsimp only
    split_ifs <;> rfl

theorem foldl_applyOne_core (as : List Anomaly) :
    ∀ r : HeartRateReading, (as.foldl applyOne r).core = r.core := by
  induction as with
  | nil => intro r; rfl
  | cons a as ih => intro r; rw [List.foldl_cons, ih, applyOne_core]

theorem markAnomalies_map_core (as : List Anomaly) (rs : List HeartRateReading) :
    (markAnomalies as rs).map (·.core) = rs.map (·.core) := by
  unfold markAnomalies
  rw [List.map_map]
  exact List.map_congr_left (fun r _ => foldl_applyOne_core as r)

/-- A reading with the mark fields resolved from an optional anomaly. -/
def applyAcc (r : HeartRateReading) : Option Anomaly → HeartRateReading
  | some a => setMark a r
  | none => r

theorem applyAcc_core (r : HeartRateReading) (acc : Option Anomaly) :
    (applyAcc r acc).core = r.core := by
  rcases acc with _ | a <;> rfl

/-- The last anomaly in the list carrying the given reading id, threaded
from an accumulator. -/
def lastMatchFor (i : ℕ) (acc : Option Anomaly) (as : List Anomaly) :
    Option Anomaly :=
  as.foldl (fun acc a => if a.reading_id = some i then some a else acc) acc

theorem lastMatchFor_acc (i : ℕ) (as : List Anomaly) : ∀ acc,
    lastMatchFor i acc as =
      match lastMatchFor i none as with
      | some x => some x
      | none => acc := by
  induction as with
  | nil => intro acc; rfl
  | cons a as ih =>
    intro acc
    unfold lastMatchFor
    rw [List.foldl_cons, List.foldl_cons]
    by_cases hm : a.reading_id = some i
    · rw [if_pos hm, if_pos hm]
      have h1 := ih (some a)
      unfold lastMatchFor at h1
      rw [h1]
      cases List.foldl (fun acc a => if a.reading_id = some i then some a else acc) none as <;>
        rfl
    · rw [if_neg hm, if_neg hm]
      exact ih acc

/-- Net effect of the marking fold: each reading carries the last matching
anomaly mark (or keeps its initial mark). -/
theorem foldl_applyOne_eq_applyAcc (as : List Anomaly) :
    ∀ (r : HeartRateReading) (acc : Option Anomaly),
      as.foldl applyOne (applyAcc r acc) =
        applyAcc r (lastMatchFor r.core.id acc as) := by
  induction as with
  | nil => intro r acc; rfl
  | cons a as ih =>
    intro r acc
    rw [List.foldl_cons]
    have hstep : applyOne (applyAcc r acc) a =
        applyAcc r (if a.reading_id = some r.core.id then some a else acc) := by
      rcases hari : a.reading_id with _ | i
      · simp only [applyOne, hari, if_neg (by simp : ¬ (none : Option ℕ) = some r.core.id)]
      · by_cases hi : i = r.core.id
        · subst hi
          simp only [applyOne, hari, applyAcc_core, eq_self_iff_true, if_true]
          rcases acc with _ | b <;> rfl
        · simp only [applyOne, hari, applyAcc_core,
            if_neg hi, if_neg (fun h => hi (Option.some.inj h))]
    rw [hstep]
    rw [ih r _]
    have h2 : lastMatchFor r.core.id acc (a :: as) =
        lastMatchFor r.core.id
          (if a.reading_id = some r.core.id then some a else acc) as := by
      unfold lastMatchFor
      rw [List.foldl_cons]
    rw [h2]

theorem foldl_applyOne_idem (as : List Anomaly) (r : HeartRateReading) :
    as.foldl applyOne (as.foldl applyOne r) = as.foldl applyOne r := by
  have h1 := foldl_applyOne_eq_applyAcc as r none
  simp only [applyAcc] at h1
  rcases hL : lastMatchFor r.core.id none as with _ | a
  · rw [hL] at h1
    simp only [applyAcc] at h1
    rw [h1]
    rw [h1]
  · rw [hL] at h1
    simp only [applyAcc] at h1
    rw [h1]
    have h2 := foldl_applyOne_eq_applyAcc as r (some a)
    simp only [applyAcc] at h2
    rw [h2]
    have h3 := lastMatchFor_acc r.core.id as (some a)
    rw [hL] at h3
    simp only at h3
    rw [h3]

theorem markAnomalies_idem (as : List Anomaly) (rs : List HeartRateReading) :
    markAnomalies as (markAnomalies as rs) = markAnomalies as rs := by
  unfold markAnomalies
  rw [List.map_map]
  exact List.map_congr_left (fun r _ => foldl_applyOne_idem as r)

end HeartRateProcessor

/-- C3: anomaly detection is idempotent on the window state: a second run
over the state left by the first returns the same anomaly list and the same
state (detection reads only the measurement cores, which marking preserves;
re-marking the same anomalies is a fixed point). -/
theorem detect_anomalies_idempotent :
    ∀ rs : List HeartRateProcessor.HeartRateReading,
      HeartRateProcessor.detect_anomalies
          (HeartRateProcessor.detect_anomalies rs).2 =
        HeartRateProcessor.detect_anomalies rs := by
  intro rs
  by_cases hl : rs.length < 10
  · have h : HeartRateProcessor.detect_anomalies rs = ([], rs) := by
      unfold HeartRateProcessor.detect_anomalies; rw [if_pos hl]
    rw [h]
    exact h
  · have h : HeartRateProcessor.detect_anomalies rs =
        (HeartRateProcessor.anomaliesOfCores (rs.map (·.core)),
         HeartRateProcessor.markAnomalies
           (HeartRateProcessor.anomaliesOfCores (rs.map (·.core))) rs) := by
      unfold HeartRateProcessor.detect_anomalies; rw [if_neg hl]
    set A := HeartRateProcessor.anomaliesOfCores (rs.map (·.core)) with hA
    have hlen : (HeartRateProcessor.markAnomalies A rs).length = rs.length := by
      unfold HeartRateProcessor.markAnomalies; rw [List.length_map]
    have hnl : ¬ (HeartRateProcessor.markAnomalies A rs).length < 10 := by
      rw [hlen]; exact hl
    have hcore : (HeartRateProcessor.markAnomalies A rs).map (·.core) = rs.map (·.core) :=
      HeartRateProcessor.markAnomalies_map_core A rs
    rw [h]
    show HeartRateProcessor.detect_anomalies (HeartRateProcessor.markAnomalies A rs) = _
    unfold HeartRateProcessor.detect_anomalies
    rw [if_neg hnl, hcore]
    show (A, HeartRateProcessor.markAnomalies A (HeartRateProcessor.markAnomalies A rs))
        = (A, HeartRateProcessor.markAnomalies A rs)
    rw [HeartRateProcessor.markAnomalies_idem]

theorem qmean_const {xs : List ℚ} {c : ℚ} (h : ∀ x ∈ xs, x = c) (hne : xs ≠ []) :
    qmean xs = c := by
  unfold qmean
  rw [List.sum_eq_card_nsmul xs c h, nsmul_eq_mul]
  have hn : (xs.length : ℚ) ≠ 0 := by
    have := List.length_pos.mpr hne
    positivity
  field_simp

theorem qvarPop_zero_of_const {xs : List ℚ} {c : ℚ} (h : ∀ x ∈ xs, x = c) :
    qvarPop xs = 0 := by
  rcases eq_or_ne xs [] with rfl | hne
  · simp [qvarPop, qmean]
  · unfold qvarPop
    have hsum : (xs.map (fun x => (x - qmean xs) ^ 2)).sum = 0 := by
      rw [List.sum_eq_card_nsmul _ (0:ℚ), smul_zero]
      intro y hy
      obtain ⟨x, hx, rfl⟩ := List.mem_map.mp hy
      rw [h x hx, qmean_const h hne]
      ring
    rw [hsum]
    simp

namespace HeartRateProcessor

theorem pointAnomalies_of_var_nonpos (cs : List HRCore) (m : ℚ) {v : ℚ} (hv : v ≤ 0) :
    pointAnomalies cs m v = [] := by
  unfold pointAnomalies
  rw [List.filterMap_eq_nil_iff]
  intro a _
  unfold pointAnomalyOf
  rw [if_neg]
  rintro ⟨h1, -⟩
  linarith

theorem detect_patterns_shape (cs : List HRCore) (m v : ℚ) :
    ∀ a ∈ detect_patterns cs m v,
      (a.type = "sustained_high_heart_rate" ∨ a.type = "very_low_hrv"
        ∨ a.type = "low_hrv")
      ∧ a.reading_id = none := by
  intro a ha
  unfold detect_patterns at ha
  split_ifs at ha with h
  · simp at ha
  · rcases List.mem_append.mp ha with h1 | h1
    · rcases hfs : firstSustained cs m v with _ | b
      · rw [hfs] at h1; simp at h1
      · rw [hfs] at h1
        simp only [Option.toList_some, List.mem_singleton] at h1
        subst h1
        obtain ⟨i, hi, hsome⟩ := List.exists_of_findSome?_eq_some hfs
        dsimp only at hsome
        split_ifs at hsome with hc
        obtain rfl := Option.some.inj hsome
        exact ⟨Or.inl rfl, rfl⟩
    · unfold detect_hrv_issues hrvOfTimestamps at h1
      by_cases h30 : (cs.map (fun x => x.timestamp)).length < 30
      · rw [if_pos h30] at h1
        simp at h1
      · rw [if_neg h30] at h1
        by_cases h20 : (diffsOf (cs.map (fun x => x.timestamp))).length < 20
        · rw [if_pos h20] at h1
          simp at h1
        · rw [if_neg h20] at h1
          by_cases hv1 : 1000000 * hrvMsq (cs.map (fun x => x.timestamp)) < 100
          · rw [if_pos hv1] at h1
            rw [List.mem_singleton] at h1
            subst h1
            exact ⟨Or.inr (Or.inl rfl), rfl⟩
          · rw [if_neg hv1] at h1
            by_cases hv2 : 1000000 * hrvMsq (cs.map (fun x => x.timestamp)) < 400
            · rw [if_pos hv2] at h1
              rw [List.mem_singleton] at h1
              subst h1
              exact ⟨Or.inr (Or.inr rfl), rfl⟩
            · rw [if_neg hv2] at h1
              simp at h1

end HeartRateProcessor

/-- Reading constructor for concrete windows. -/
def mkReading (i : ℕ) (b : ℚ) : HeartRateProcessor.HeartRateReading :=
  { core := { id := i, bpm := b, timestamp := 60 * i, context := "rest" } }

/-- C4: in a window of at least 10 readings with constant bpm, the
variance is 0, the guarded z-score is 0 for every reading, and the point
pass flags nothing; no high/low heart-rate point anomaly appears in the
full detector output either. -/
theorem constant_bpm_window_no_point_anomalies :
    ∀ (rs : List HeartRateProcessor.HeartRateReading) (c : ℚ),
      10 ≤ rs.length → (∀ r ∈ rs, r.core.bpm = c) →
      HeartRateProcessor.pointAnomalies (rs.map (·.core))
          (qmean ((rs.map (·.core)).map (·.bpm)))
          (qvarPop ((rs.map (·.core)).map (·.bpm))) = []
      ∧ ∀ a ∈ (HeartRateProcessor.detect_anomalies rs).1,
          a.type ≠ "high_heart_rate" ∧ a.type ≠ "low_heart_rate" := by
  intro rs c hlen hconst
  have hvar : qvarPop ((rs.map (·.core)).map (·.bpm)) = 0 := by
    apply qvarPop_zero_of_const (c := c)
    intro x hx
    simp only [List.map_map, List.mem_map] at hx
    obtain ⟨r, hr, rfl⟩ := hx
    exact hconst r hr
  have hpt : HeartRateProcessor.pointAnomalies (rs.map (·.core))
      (qmean ((rs.map (·.core)).map (·.bpm)))
      (qvarPop ((rs.map (·.core)).map (·.bpm))) = [] :=
    HeartRateProcessor.pointAnomalies_of_var_nonpos _ _ (le_of_eq hvar)
  refine ⟨hpt, ?_⟩
  intro a ha
  have hnl : ¬ rs.length < 10 := not_lt.mpr hlen
  have hdet : (HeartRateProcessor.detect_anomalies rs).1 =
      HeartRateProcessor.anomaliesOfCores (rs.map (·.core)) := by
    unfold HeartRateProcessor.detect_anomalies
    rw [if_neg hnl]
  rw [hdet] at ha
  unfold HeartRateProcessor.anomaliesOfCores at ha
  rcases List.mem_append.mp ha with h1 | h1
  · rw [hpt] at h1
    exact absurd h1 (List.not_mem_nil a)
  · obtain ⟨hty, -⟩ := HeartRateProcessor.detect_patterns_shape _ _ _ a h1
    rcases hty with h | h | h <;> rw [h] <;> exact ⟨by decide, by decide⟩

/-- Ten readings all at 70 bpm. -/
def exC4 : List HeartRateProcessor.HeartRateReading :=
  [mkReading 0 70, mkReading 1 70, mkReading 2 70, mkReading 3 70, mkReading 4 70,
   mkReading 5 70, mkReading 6 70, mkReading 7 70, mkReading 8 70, mkReading 9 70]

/-- Witness for the constant-window theorem at ten 70-bpm readings. -/
theorem constant_bpm_window_no_point_anomalies_witness :
    10 ≤ exC4.length ∧ (∀ r ∈ exC4, r.core.bpm = 70)
    ∧ HeartRateProcessor.pointAnomalies (exC4.map (·.core))
        (qmean ((exC4.map (·.core)).map (·.bpm)))
        (qvarPop ((exC4.map (·.core)).map (·.bpm))) = []
    ∧ ∀ a ∈ (HeartRateProcessor.detect_anomalies exC4).1,
        a.type ≠ "high_heart_rate" ∧ a.type ≠ "low_heart_rate" := by
  have hlen : 10 ≤ exC4.length := by simp [exC4]
  have hconst : ∀ r ∈ exC4, r.core.bpm = 70 := by
    intro r hr
    simp only [exC4, List.mem_cons, List.not_mem_nil, or_false] at hr
    rcases hr with rfl | rfl | rfl | rfl | rfl | rfl | rfl | rfl | rfl | rfl <;> rfl
  obtain ⟨h1, h2⟩ := constant_bpm_window_no_point_anomalies exC4 70 hlen hconst
  exact ⟨hlen, hconst, h1, h2⟩

/-- Eleven readings: ten at 80 bpm and one at 91 bpm; the outlier has
z² = 10, i.e. 3 < |z| ≤ 4. -/
def exC2a : List HeartRateProcessor.HeartRateReading :=
  [mkReading 0 80, mkReading 1 80, mkReading 2 80, mkReading 3 80, mkReading 4 80,
   mkReading 5 80, mkReading 6 80, mkReading 7 80, mkReading 8 80, mkReading 9 80,
   mkReading 10 91]

/-- Eighteen readings: seventeen at 80 bpm and one at 98 bpm; the outlier
has z² = 17, i.e. |z| > 4. -/
def exC2b : List HeartRateProcessor.HeartRateReading :=
  [mkReading 0 80, mkReading 1 80, mkReading 2 80, mkReading 3 80, mkReading 4 80,
   mkReading 5 80, mkReading 6 80, mkReading 7 80, mkReading 8 80, mkReading 9 80,
   mkReading 10 80, mkReading 11 80, mkReading 12 80, mkReading 13 80, mkReading 14 80,
   mkReading 15 80, mkReading 16 80, mkReading 17 98]

/-- C2 (amended): in a window of at least 10 readings with distinct ids and
non-zero variance, a reading is point-flagged exactly when
`(bpm-mean)² > 9·var` (|z| > 3), with severity `critical` when |z| > 4 and
`high` otherwise, and type by the sign of the deviation. -/
theorem point_flags_amended :
    ∀ (rs : List HeartRateProcessor.HeartRateReading),
      10 ≤ rs.length →
      (rs.map (fun r => r.core.id)).Nodup →
      0 < qvarPop ((rs.map (·.core)).map (·.bpm)) →
      ∀ r ∈ rs,
        ((∃ a ∈ (HeartRateProcessor.detect_anomalies rs).1,
            a.reading_id = some r.core.id) ↔
          9 * qvarPop ((rs.map (·.core)).map (·.bpm)) <
            (r.core.bpm - qmean ((rs.map (·.core)).map (·.bpm))) ^ 2)
        ∧ ∀ a ∈ (HeartRateProcessor.detect_anomalies rs).1,
            a.reading_id = some r.core.id →
            a.severity = (if 16 * qvarPop ((rs.map (·.core)).map (·.bpm)) <
                (r.core.bpm - qmean ((rs.map (·.core)).map (·.bpm))) ^ 2
              then "critical" else "high")
            ∧ a.type = (if 0 < r.core.bpm - qmean ((rs.map (·.core)).map (·.bpm))
              then "high_heart_rate" else "low_heart_rate") := by
  intro rs hlen hnodup hv r hr
  have hnl : ¬ rs.length < 10 := not_lt.mpr hlen
  have hdet : (HeartRateProcessor.detect_anomalies rs).1 =
      HeartRateProcessor.anomaliesOfCores (rs.map (·.core)) := by
    unfold HeartRateProcessor.detect_anomalies
    rw [if_neg hnl]
  have key : ∀ a ∈ (HeartRateProcessor.detect_anomalies rs).1,
      a.reading_id = some r.core.id →
      9 * qvarPop ((rs.map (·.core)).map (·.bpm)) <
          (r.core.bpm - qmean ((rs.map (·.core)).map (·.bpm))) ^ 2
      ∧ HeartRateProcessor.pointAnomalyOf
          (qmean ((rs.map (·.core)).map (·.bpm)))
          (qvarPop ((rs.map (·.core)).map (·.bpm))) r.core = some a := by
    intro a ha hid
    rw [hdet] at ha
    unfold HeartRateProcessor.anomaliesOfCores at ha
    rcases List.mem_append.mp ha with h1 | h1
    · obtain ⟨c, hc, hpa⟩ := List.mem_filterMap.mp h1
      obtain ⟨r2, hr2, rfl⟩ := List.mem_map.mp hc
      unfold HeartRateProcessor.pointAnomalyOf at hpa
      dsimp only at hpa
      by_cases hcond : 0 < qvarPop ((rs.map (·.core)).map (·.bpm)) ∧
          9 * qvarPop ((rs.map (·.core)).map (·.bpm)) <
            (r2.core.bpm - qmean ((rs.map (·.core)).map (·.bpm))) ^ 2
      · rw [if_pos hcond] at hpa
        obtain rfl := Option.some.inj hpa
        have hid2 : r2.core.id = r.core.id := Option.some.inj hid
        have hrr : r2 = r := List.inj_on_of_nodup_map hnodup hr2 hr hid2
        subst hrr
        refine ⟨hcond.2, ?_⟩
        unfold HeartRateProcessor.pointAnomalyOf
        dsimp only
        rw [if_pos hcond]
      · rw [if_neg hcond] at hpa
        exact absurd hpa (by simp)
    · obtain ⟨-, hnone⟩ :=
        HeartRateProcessor.detect_patterns_shape (rs.map (·.core)) _ _ a h1
      rw [hnone] at hid
      exact absurd hid (by simp)
  constructor
  · constructor
    · rintro ⟨a, ha, hid⟩
      exact (key a ha hid).1
    · intro h9
      refine ⟨{ type := if 0 < r.core.bpm - qmean ((rs.map (·.core)).map (·.bpm))
                  then "high_heart_rate" else "low_heart_rate"
                severity := if 16 * qvarPop ((rs.map (·.core)).map (·.bpm)) <
                    (r.core.bpm - qmean ((rs.map (·.core)).map (·.bpm))) ^ 2
                  then "critical" else "high"
                value := some r.core.bpm
                timestamp := some r.core.timestamp
                zSq := some ((r.core.bpm - qmean ((rs.map (·.core)).map (·.bpm))) ^ 2
                  / qvarPop ((rs.map (·.core)).map (·.bpm)))
                context := some r.core.context
                reading_id := some r.core.id }, ?_, rfl⟩
      rw [hdet]
      unfold HeartRateProcessor.anomaliesOfCores
      apply List.mem_append_left
      unfold HeartRateProcessor.pointAnomalies
      apply List.mem_filterMap.mpr
      refine ⟨r.core, List.mem_map_of_mem _ hr, ?_⟩
      unfold HeartRateProcessor.pointAnomalyOf
      dsimp only
      rw [if_pos ⟨hv, h9⟩]
  · intro a ha hid
    obtain ⟨h9, hpa⟩ := key a ha hid
    unfold HeartRateProcessor.pointAnomalyOf at hpa
    dsimp only at hpa
    rw [if_pos ⟨hv, h9⟩] at hpa
    obtain rfl := (Option.some.inj hpa).symm
    exact ⟨rfl, rfl⟩

/-- C2 counterexample: the code grades point anomalies `critical`/`high`,
not the claimed `high`/`medium` — a 3 < |z| ≤ 4 outlier gets `high`
(claim says `medium`) and a |z| > 4 outlier gets `critical` (claim says
`high`). -/
theorem point_anomaly_severity_counterexample :
    (HeartRateProcessor.detect_anomalies exC2a).1.map (fun a => (a.type, a.severity))
      = [("high_heart_rate", "high")]
    ∧ 9 * qvarPop ((exC2a.map (·.core)).map (·.bpm)) <
        ((91 : ℚ) - qmean ((exC2a.map (·.core)).map (·.bpm))) ^ 2
    ∧ ((91 : ℚ) - qmean ((exC2a.map (·.core)).map (·.bpm))) ^ 2 ≤
        16 * qvarPop ((exC2a.map (·.core)).map (·.bpm))
    ∧ ("high" : String) ≠ "medium"
    ∧ (HeartRateProcessor.detect_anomalies exC2b).1.map (fun a => (a.type, a.severity))
      = [("high_heart_rate", "critical")]
    ∧ 16 * qvarPop ((exC2b.map (·.core)).map (·.bpm)) <
        ((98 : ℚ) - qmean ((exC2b.map (·.core)).map (·.bpm))) ^ 2
    ∧ ("critical" : String) ≠ "high" := by
  refine ⟨?_, ?_, ?_, by decide, ?_, ?_, by decide⟩ <;>
  norm_num [HeartRateProcessor.detect_anomalies, HeartRateProcessor.anomaliesOfCores,
    HeartRateProcessor.pointAnomalies, HeartRateProcessor.pointAnomalyOf,
    HeartRateProcessor.detect_patterns, qmean, qvarPop, exC2a, exC2b, mkReading,
    List.filterMap]

/-- Witness for the amended C2 theorem at the eleven-reading window. -/
theorem point_flags_amended_witness :
    10 ≤ exC2a.length
    ∧ (exC2a.map (fun r => r.core.id)).Nodup
    ∧ 0 < qvarPop ((exC2a.map (·.core)).map (·.bpm))
    ∧ mkReading 10 91 ∈ exC2a
    ∧ ((∃ a ∈ (HeartRateProcessor.detect_anomalies exC2a).1,
          a.reading_id = some (mkReading 10 91).core.id) ↔
        9 * qvarPop ((exC2a.map (·.core)).map (·.bpm)) <
          ((mkReading 10 91).core.bpm - qmean ((exC2a.map (·.core)).map (·.bpm))) ^ 2)
    ∧ ∀ a ∈ (HeartRateProcessor.detect_anomalies exC2a).1,
        a.reading_id = some (mkReading 10 91).core.id →
        a.severity = (if 16 * qvarPop ((exC2a.map (·.core)).map (·.bpm)) <
            ((mkReading 10 91).core.bpm - qmean ((exC2a.map (·.core)).map (·.bpm))) ^ 2
          then "critical" else "high")
        ∧ a.type = (if 0 < (mkReading 10 91).core.bpm -
              qmean ((exC2a.map (·.core)).map (·.bpm))
            then "high_heart_rate" else "low_heart_rate") := by
  have hlen : 10 ≤ exC2a.length := by simp [exC2a]
  have hmap : exC2a.map (fun r => r.core.id) = [0, 1, 2, 3, 4, 5, 6, 7, 8, 9, 10] := by
    simp [exC2a, mkReading]
  have hnodup : (exC2a.map (fun r => r.core.id)).Nodup := by
    rw [hmap]; decide
  have hv : 0 < qvarPop ((exC2a.map (·.core)).map (·.bpm)) := by
    norm_num [qvarPop, qmean, exC2a, mkReading]
  have hmem : mkReading 10 91 ∈ exC2a := by simp [exC2a]
  obtain ⟨h1, h2⟩ := point_flags_amended exC2a hlen hnodup hv _ hmem
  exact ⟨hlen, hnodup, hv, hmem, h1, h2⟩

/-- The regularly spaced timestamp sequence t0, t0+g, t0+2g, ... -/
def arithSeq (t0 g : ℚ) : ℕ → List ℚ
  | 0 => []
  | n + 1 => t0 :: arithSeq (t0 + g) g n

theorem arithSeq_length (g : ℚ) : ∀ (n : ℕ) (t0 : ℚ), (arithSeq t0 g n).length = n := by
  intro n
  induction n with
  | zero => intro t0; rfl
  | succ m ih => intro t0; simp [arithSeq, ih]

theorem diffsOf_arithSeq (g : ℚ) : ∀ (n : ℕ) (t0 : ℚ),
    HeartRateProcessor.diffsOf (arithSeq t0 g n) = List.replicate (n - 1) g := by
  intro n
  induction n with
  | zero => intro t0; rfl
  | succ m ih =>
    intro t0
    cases m with
    | zero => rfl
    | succ k =>
      show HeartRateProcessor.diffsOf
          (t0 :: (t0 + g) :: arithSeq (t0 + g + g) g k) = List.replicate (k + 1) g
      rw [show HeartRateProcessor.diffsOf (t0 :: (t0 + g) :: arithSeq (t0 + g + g) g k)
          = ((t0 + g) - t0) :: HeartRateProcessor.diffsOf ((t0 + g) :: arithSeq (t0 + g + g) g k)
        from rfl]
      rw [show ((t0 + g) :: arithSeq (t0 + g + g) g k) = arithSeq (t0 + g) g (k + 1) from rfl]
      rw [ih (t0 + g)]
      simp [List.replicate_succ]

theorem diffsOf_replicate (g : ℚ) : ∀ m : ℕ,
    HeartRateProcessor.diffsOf (List.replicate m g) = List.replicate (m - 1) 0 := by
  intro m
  induction m with
  | zero => rfl
  | succ k ih =>
    cases k with
    | zero => rfl
    | succ j =>
      rw [List.replicate_succ, List.replicate_succ]
      show (g - g) :: HeartRateProcessor.diffsOf (g :: List.replicate j g) =
        List.replicate (j + 1) 0
      rw [← List.replicate_succ]
      rw [ih]
      simp [List.replicate_succ]

theorem hrvMsq_arithSeq (t0 g : ℚ) (n : ℕ) :
    HeartRateProcessor.hrvMsq (arithSeq t0 g n) = 0 := by
  unfold HeartRateProcessor.hrvMsq
  rw [diffsOf_arithSeq, diffsOf_replicate]
  rw [List.map_replicate]
  unfold qmean
  rw [List.sum_replicate]
  norm_num

theorem hrvOfTimestamps_arithSeq (t0 g : ℚ) (n : ℕ) (hn : 30 ≤ n) :
    (HeartRateProcessor.hrvOfTimestamps (arithSeq t0 g n)).map
      (fun a => (a.type, a.severity, a.rmssdSq)) = [("very_low_hrv", "high", some 0)] := by
  unfold HeartRateProcessor.hrvOfTimestamps
  rw [arithSeq_length]
  rw [if_neg (by omega)]
  rw [diffsOf_arithSeq]
  simp only [List.length_replicate]
  rw [if_neg (by omega)]
  rw [hrvMsq_arithSeq]
  norm_num

theorem firstSustained_none_of_const {cs : List HeartRateProcessor.HRCore} {c : ℚ}
    (hconst : ∀ x ∈ cs, x.bpm = c) (hlen : 10 ≤ cs.length) (v : ℚ) :
    HeartRateProcessor.firstSustained cs (qmean (cs.map (·.bpm))) v = none := by
  apply List.findSome?_eq_none_iff.mpr
  intro i hi
  dsimp only
  rw [if_neg]
  rintro ⟨hd, -⟩
  have hmem : ∀ x ∈ cs.map (·.bpm), x = c := by
    intro x hx
    obtain ⟨y, hy, rfl⟩ := List.mem_map.mp hx
    exact hconst y hy
  have hcs_ne : cs.map (·.bpm) ≠ [] := by
    apply List.ne_nil_of_length_pos
    rw [List.length_map]
    omega
  have hmean_cs : qmean (cs.map (·.bpm)) = c := qmean_const hmem hcs_ne
  have hwlen : (((cs.drop i).take 10)).length = 10 := by
    rw [List.length_take, List.length_drop]
    rw [List.mem_range] at hi
    omega
  have hwmem : ∀ x ∈ ((cs.drop i).take 10).map (·.bpm), x = c := by
    intro x hx
    obtain ⟨y, hy, rfl⟩ := List.mem_map.mp hx
    exact hconst y (List.drop_subset i cs (List.take_subset 10 (cs.drop i) hy))
  have hw_ne : ((cs.drop i).take 10).map (·.bpm) ≠ [] := by
    apply List.ne_nil_of_length_pos
    rw [List.length_map, hwlen]
    omega
  have hwmean : qmean (((cs.drop i).take 10).map (·.bpm)) = c := qmean_const hwmem hw_ne
  rw [hwmean, hmean_cs] at hd
  linarith

/-- C10: the HRV pass computes its statistics from reading timestamps only
(bpm-invariant); a window of ≥30 regularly spaced readings has RMSSD = 0,
so a `very_low_hrv` anomaly of severity `high` is emitted — also through the
full `detect_anomalies` when every bpm is identical. -/
theorem hrv_uses_only_timestamps :
    (∀ cs cs2 : List HeartRateProcessor.HRCore,
        cs.map (·.timestamp) = cs2.map (·.timestamp) →
        HeartRateProcessor.detect_hrv_issues cs =
          HeartRateProcessor.detect_hrv_issues cs2)
    ∧ (∀ (t0 g : ℚ) (n : ℕ), 30 ≤ n →
        HeartRateProcessor.hrvMsq (arithSeq t0 g n) = 0
        ∧ (HeartRateProcessor.hrvOfTimestamps (arithSeq t0 g n)).map
            (fun a => (a.type, a.severity, a.rmssdSq))
          = [("very_low_hrv", "high", some 0)])
    ∧ (∀ (rs : List HeartRateProcessor.HeartRateReading) (c t0 g : ℚ),
        30 ≤ rs.length → (∀ r ∈ rs, r.core.bpm = c) →
        (rs.map (·.core)).map (·.timestamp) = arithSeq t0 g rs.length →
        ((HeartRateProcessor.detect_anomalies rs).1).map
            (fun a => (a.type, a.severity, a.rmssdSq))
          = [("very_low_hrv", "high", some 0)]) := by
  refine ⟨?_, ?_, ?_⟩
  · intro cs cs2 h
    unfold HeartRateProcessor.detect_hrv_issues
    rw [h]
  · intro t0 g n hn
    exact ⟨hrvMsq_arithSeq t0 g n, hrvOfTimestamps_arithSeq t0 g n hn⟩
  · intro rs c t0 g hlen hconst hts
    have hnl : ¬ rs.length < 10 := by omega
    have hdet : (HeartRateProcessor.detect_anomalies rs).1 =
        HeartRateProcessor.anomaliesOfCores (rs.map (·.core)) := by
      unfold HeartRateProcessor.detect_anomalies
      rw [if_neg hnl]
    rw [hdet]
    unfold HeartRateProcessor.anomaliesOfCores
    have hbpm : ∀ x ∈ (rs.map (·.core)).map (·.bpm), x = c := by
      intro x hx
      simp only [List.map_map, List.mem_map] at hx
      obtain ⟨r, hr, rfl⟩ := hx
      exact hconst r hr
    have hvar : qvarPop ((rs.map (·.core)).map (·.bpm)) = 0 :=
      qvarPop_zero_of_const hbpm
    rw [HeartRateProcessor.pointAnomalies_of_var_nonpos _ _ (le_of_eq hvar)]
    unfold HeartRateProcessor.detect_patterns
    have hcslen : (rs.map (·.core)).length = rs.length := List.length_map _ _
    rw [hcslen]
    rw [if_neg (by omega)]
    have hfs : HeartRateProcessor.firstSustained (rs.map (·.core))
        (qmean (((rs.map (·.core))).map (·.bpm)))
        (qvarPop (((rs.map (·.core))).map (·.bpm))) = none := by
      apply firstSustained_none_of_const
      · intro x hx
        obtain ⟨r, hr, rfl⟩ := List.mem_map.mp hx
        exact hconst r hr
      · rw [hcslen]; omega
    rw [hfs]
    unfold HeartRateProcessor.detect_hrv_issues
    rw [hts]
    simp only [Option.toList_none, List.nil_append]
    exact hrvOfTimestamps_arithSeq t0 g rs.length (by omega)

/-- A window of n constant-bpm readings with regularly spaced timestamps. -/
def constWindow (c g : ℚ) : ℕ → ℚ → ℕ → List HeartRateProcessor.HeartRateReading
  | _, _, 0 => []
  | i, t0, n + 1 =>
      { core := { id := i, bpm := c, timestamp := t0, context := "rest" } } ::
        constWindow c g (i + 1) (t0 + g) n

theorem constWindow_length (c g : ℚ) :
    ∀ (n i : ℕ) (t0 : ℚ), (constWindow c g i t0 n).length = n := by
  intro n
  induction n with
  | zero => intro i t0; rfl
  | succ m ih => intro i t0; simp [constWindow, ih]

theorem constWindow_bpm (c g : ℚ) :
    ∀ (n i : ℕ) (t0 : ℚ), ∀ r ∈ constWindow c g i t0 n, r.core.bpm = c := by
  intro n
  induction n with
  | zero => intro i t0 r hr; simp [constWindow] at hr
  | succ m ih =>
    intro i t0 r hr
    rcases List.mem_cons.mp hr with rfl | hr2
    · rfl
    · exact ih (i + 1) (t0 + g) r hr2

theorem constWindow_timestamps (c g : ℚ) :
    ∀ (n i : ℕ) (t0 : ℚ),
      ((constWindow c g i t0 n).map (·.core)).map (·.timestamp) = arithSeq t0 g n := by
  intro n
  induction n with
  | zero => intro i t0; rfl
  | succ m ih =>
    intro i t0
    simp only [constWindow, List.map_cons, arithSeq]
    rw [ih]

/-- The concrete C10 window: 30 readings at 70 bpm, one per minute. -/
def exC10 : List HeartRateProcessor.HeartRateReading := constWindow 70 60 0 0 30

/-- Witness for the HRV theorem at 30 identical readings, one per minute. -/
theorem hrv_uses_only_timestamps_witness :
    30 ≤ exC10.length ∧ (∀ r ∈ exC10, r.core.bpm = 70)
    ∧ (exC10.map (·.core)).map (·.timestamp) = arithSeq 0 60 exC10.length
    ∧ ((HeartRateProcessor.detect_anomalies exC10).1).map
        (fun a => (a.type, a.severity, a.rmssdSq)) = [("very_low_hrv", "high", some 0)] := by
  have hlen : 30 ≤ exC10.length := by
    rw [show exC10.length = 30 from constWindow_length 70 60 30 0 0]
  have hbpm : ∀ r ∈ exC10, r.core.bpm = 70 := constWindow_bpm 70 60 30 0 0
  have hts : (exC10.map (·.core)).map (·.timestamp) = arithSeq 0 60 exC10.length := by
    rw [show exC10.length = 30 from constWindow_length 70 60 30 0 0]
    exact constWindow_timestamps 70 60 30 0 0
  exact ⟨hlen, hbpm, hts,
    hrv_uses_only_timestamps.2.2 exC10 70 0 60 hlen hbpm hts⟩
